import Mathlib

/-!
# DSP-Testbench: the per-block routing core and the snapshot hold

A shallow embedding of `Source/GUI/MainComponent.cpp` (the audio callback
`getNextAudioBlock`, `routeSourcesAndProcess`, `prepareToPlay`,
`triggerSnapshot`, `resumeStreaming`), of
`Source/Processing/ParametricEQ.cpp` (`getDefaultControlValue`) and of the duration
statistics declared in `Source/Processing/ProcessorHarness.h`.

Conventions of the embedding

* Samples live in an arbitrary type `S` that only carries the operations the
  code uses (`0`, `1`, `+`, `*`, unary `-`); no algebraic law is assumed, so
  every statement holds for any sample arithmetic.
* An `AudioBlock S c n` is a block of `c` channels of `n` samples.  The in-place
  operations of `juce::dsp::AudioBlock` become functions returning the new
  contents of the destination block.
* Member functions become functions from the component state to the new state.
  Calls made on collaborators during an audio callback are also listed, in
  order, in a `List Call` returned next to the state.
* `sampleCounter`, `holdSize` and `numSamples` are only set, added and compared by
  the code; they are integers here, without a bound (the members are declared in
  `MainComponent.h`, which is not among the sources).
* The namespace `Example` holds a concrete bench on which the statements are
  evaluated.
-/

namespace DSPTestbench

/-! ## Audio blocks -/

/-- A block of `c` channels with `n` samples each (`juce::dsp::AudioBlock<float>`). -/
@[ext]
structure AudioBlock (S : Type) (c n : Nat) where
  data : Fin c → Fin n → S

namespace AudioBlock

variable {S : Type} {c n d k : Nat}

/-- `dst.copyFrom (src)`: overwrites the samples that both blocks have
(the first `min` channels, the first `min` samples of each) with those of `src`;
the other samples of `dst` keep their value. -/
def copyFrom (dst : AudioBlock S c n) (src : AudioBlock S d k) : AudioBlock S c n :=
  ⟨fun ch i =>
    if h : ch.val < d ∧ i.val < k then src.data ⟨ch.val, h.1⟩ ⟨i.val, h.2⟩ else dst.data ch i⟩

/-- `dst.add (src)`: adds the samples of `src` to those of `dst`, over the samples
that both blocks have. -/
def add [Add S] (dst : AudioBlock S c n) (src : AudioBlock S d k) : AudioBlock S c n :=
  ⟨fun ch i =>
    if h : ch.val < d ∧ i.val < k then dst.data ch i + src.data ⟨ch.val, h.1⟩ ⟨i.val, h.2⟩
    else dst.data ch i⟩

/-- `dst.clear()`: every sample becomes zero. -/
def clear [Zero S] (_dst : AudioBlock S c n) : AudioBlock S c n :=
  ⟨fun _ _ => 0⟩

/-- `dst.multiplyBy (value)`: every sample is multiplied by `value`. -/
def multiplyBy [Mul S] (dst : AudioBlock S c n) (value : S) : AudioBlock S c n :=
  ⟨fun ch i => dst.data ch i * value⟩

/-- Sample-for-sample sum of two blocks of the same size. -/
instance instAdd [Add S] : Add (AudioBlock S c n) :=
  ⟨fun a b => ⟨fun ch i => a.data ch i + b.data ch i⟩⟩

/-- The all-zero block (silence). -/
instance instZero [Zero S] : Zero (AudioBlock S c n) :=
  ⟨⟨fun _ _ => 0⟩⟩

/-- The block whose samples all have the value `v`. -/
def const (v : S) : AudioBlock S c n :=
  ⟨fun _ _ => v⟩

end AudioBlock

/-! ## Collaborators

The bodies of the stages are not part of the sources; what the callback reads
from them is a field, what it calls on them is a function field acting on the
stage's own state `σ`. -/

/-- `juce::dsp::ProcessSpec`. -/
structure ProcessSpec where
  sampleRate : ℚ
  maximumBlockSize : Nat
  numChannels : Nat

/-- `SourceComponent::Mode`; only `AudioIn` is tested by the callback. -/
inductive Mode where
  | AudioIn
  | Generated
  deriving DecidableEq, Repr

/-- The two sources and the two processor slots are called A and B. -/
inductive Slot where
  | A
  | B
  deriving DecidableEq, Repr

/-- A signal source (`SourceComponent`). -/
structure SourceComponent (S σ : Type) where
  mode : Mode
  state : σ
  prepare : ProcessSpec → σ → σ
  process : (c n : Nat) → σ → AudioBlock S c n → σ × AudioBlock S c n
  storeWavePlayerState : σ → σ
  prepForSnapShot : σ → σ

/-- A processor slot (`ProcessorComponent`): the values its four getters
`isSourceConnectedA`, `isSourceConnectedB`, `isProcessorEnabled`, `isInverted`
return, the state of the processor under test and its lifecycle calls. -/
structure ProcessorComponent (S σ : Type) where
  sourceConnectedA : Bool
  sourceConnectedB : Bool
  processorEnabled : Bool
  inverted : Bool
  processor : σ
  prepare : ProcessSpec → σ → σ
  process : (c n : Nat) → σ → AudioBlock S c n → σ × AudioBlock S c n
  reset : σ → σ

/-- Modelled from the spec: `AnalyserComponent` is not among the sources. It
exposes whether it is active (`isProcessing`), `activateProcessing`,
`suspendProcessing` and a `process` tap that does not alter the block. -/
structure AnalyserComponent (S σ : Type) where
  processing : Bool
  state : σ
  prepare : ProcessSpec → σ → σ
  process : (c n : Nat) → σ → AudioBlock S c n → σ
  reset : σ → σ

/-- Modelled from the spec: `activateProcessing` of the analyser, which is not among
the sources: the analyser is active afterwards. -/
def AnalyserComponent.activateProcessing {S σ : Type} (a : AnalyserComponent S σ) :
    AnalyserComponent S σ :=
  { a with processing := true }

/-- Modelled from the spec: `suspendProcessing` of the analyser, which is not among
the sources: the analyser is not active afterwards. -/
def AnalyserComponent.suspendProcessing {S σ : Type} (a : AnalyserComponent S σ) :
    AnalyserComponent S σ :=
  { a with processing := false }

/-- The monitoring section (`MonitoringComponent`): `isMuted` and the lifecycle calls. -/
structure MonitoringComponent (S σ : Type) where
  muted : Bool
  state : σ
  prepare : ProcessSpec → σ → σ
  process : (c n : Nat) → σ → AudioBlock S c n → σ × AudioBlock S c n
  reset : σ → σ

/-- A call made on a collaborator. `processorProcess` carries the buffer handed to
the processor. -/
inductive Call (S : Type) (c n : Nat) where
  | sourceProcess (source : Slot)
  | processorProcess (processor : Slot) (buffer : AudioBlock S c n)
  | analyserProcess
  | monitoringProcess
  | analyserSuspendProcessing
  | addJobCloseAudioDevice
  | storeWavePlayerState (source : Slot)
  | prepForSnapShot (source : Slot)
  | processorReset (processor : Slot)
  | analyserReset
  | monitoringReset
  | analyserActivateProcessing
  | closeAudioDevice
  | restartLastAudioDevice

/-- Whether a call is a `process` call on the processor of the given slot. -/
def Call.isProcessOn {S : Type} {c n : Nat} (slot : Slot) : Call S c n → Bool
  | Call.processorProcess s _ => decide (s = slot)
  | _ => false

/-- The number of `process` calls made on the processor of the given slot. -/
def Call.processCount {S : Type} {c n : Nat} (slot : Slot) (calls : List (Call S c n)) : Nat :=
  calls.countP (Call.isProcessOn slot)

/-! ## MainContentComponent -/

/-- The members of `MainContentComponent` that the audio path uses. The three
scratch buffers have the size given to them by `prepareToPlay`. -/
structure MainContentComponent (S σ : Type) (c n : Nat) where
  holdAudio : Bool
  sampleCounter : Int
  holdSize : Int
  srcBufferA : AudioBlock S c n
  srcBufferB : AudioBlock S c n
  tempBuffer : AudioBlock S c n
  srcComponentA : SourceComponent S σ
  srcComponentB : SourceComponent S σ
  procComponentA : ProcessorComponent S σ
  procComponentB : ProcessorComponent S σ
  analyserComponent : AnalyserComponent S σ
  monitoringComponent : MonitoringComponent S σ

/-- The `AudioSourceChannelInfo` argument of the callback: `buffer` is the part of
`*bufferToFill.buffer` from `startSample` on, which `outputBlock` refers to, and
`numSamples` the number of samples the device asks for. -/
structure AudioSourceChannelInfo (S : Type) (d k : Nat) where
  buffer : AudioBlock S d k
  numSamples : Int

/-- The component, the output block and the calls made so far, at a point of
`getNextAudioBlock`. -/
structure Frame (S σ : Type) (c n d k : Nat) where
  self : MainContentComponent S σ c n
  outputBlock : AudioBlock S d k
  calls : List (Call S c n)

namespace MainContentComponent

variable {S σ : Type} {c n d k : Nat}

/-- The processor component a `ProcessorComponent*` argument points to. -/
def procComponent (m : MainContentComponent S σ c n) : Slot → ProcessorComponent S σ
  | Slot.A => m.procComponentA
  | Slot.B => m.procComponentB

/-- Writes back the processor component a `ProcessorComponent*` argument points to. -/
def setProcComponent (m : MainContentComponent S σ c n) (slot : Slot)
    (p : ProcessorComponent S σ) : MainContentComponent S σ c n :=
  match slot with
  | Slot.A => { m with procComponentA := p }
  | Slot.B => { m with procComponentB := p }

/-- `MainContentComponent::routeSourcesAndProcess (processor, tempBuffer)`; every call
site passes the member `tempBuffer` as the temporary buffer. -/
def routeSourcesAndProcess [Zero S] [One S] [Add S] [Mul S] [Neg S]
    (m : MainContentComponent S σ c n) (slot : Slot) :
    MainContentComponent S σ c n × List (Call S c n) :=
  let processor := m.procComponent slot
  -- Route signal sources
  let routed : AudioBlock S c n :=
    if processor.sourceConnectedA then
      let t := m.tempBuffer.copyFrom m.srcBufferA
      if processor.sourceConnectedB then t.add m.srcBufferB else t
    else if processor.sourceConnectedB then
      m.tempBuffer.copyFrom m.srcBufferB
    else
      m.tempBuffer.clear
  -- Perform processing
  let r := processor.process c n processor.processor routed
  let processed : ProcessorComponent S σ := { processor with processor := r.1 }
  -- Invert processor output as appropriate
  let temporaryBuffer := if processed.inverted then r.2.multiplyBy (-1) else r.2
  ({ m.setProcComponent slot processed with tempBuffer := temporaryBuffer },
    [Call.processorProcess slot routed])

/-- Lines 93-103 of `getNextAudioBlock`: `outputBlock` is made to refer to the device
buffer, a source in `AudioIn` mode gets the current block copied into its buffer,
then both sources process their buffers. -/
def sourceStage (m : MainContentComponent S σ c n) (bufferToFill : AudioSourceChannelInfo S d k) :
    Frame S σ c n d k :=
  let outputBlock := bufferToFill.buffer
  -- Copy current block into source buffers if needed
  let srcBufferA :=
    if m.srcComponentA.mode = Mode.AudioIn then m.srcBufferA.copyFrom outputBlock else m.srcBufferA
  let srcBufferB :=
    if m.srcComponentB.mode = Mode.AudioIn then m.srcBufferB.copyFrom outputBlock else m.srcBufferB
  -- Generate audio from sources
  let rA := m.srcComponentA.process c n m.srcComponentA.state srcBufferA
  let rB := m.srcComponentB.process c n m.srcComponentB.state srcBufferB
  { self :=
      { m with
        srcBufferA := rA.2
        srcBufferB := rB.2
        srcComponentA := { m.srcComponentA with state := rA.1 }
        srcComponentB := { m.srcComponentB with state := rB.1 } }
    outputBlock := outputBlock
    calls := [Call.sourceProcess Slot.A, Call.sourceProcess Slot.B] }

/-- Lines 105-122 of `getNextAudioBlock`: run audio through processors. -/
def processorStage [Zero S] [One S] [Add S] [Mul S] [Neg S] (f : Frame S σ c n d k) :
    Frame S σ c n d k :=
  if f.self.procComponentA.processorEnabled then
    let rA := f.self.routeSourcesAndProcess Slot.A
    let outputBlock := f.outputBlock.copyFrom rA.1.tempBuffer
    if rA.1.procComponentB.processorEnabled then
      -- both active
      let rB := rA.1.routeSourcesAndProcess Slot.B
      { self := rB.1
        outputBlock := outputBlock.add rB.1.tempBuffer
        calls := f.calls ++ rA.2 ++ rB.2 }
    else
      { self := rA.1, outputBlock := outputBlock, calls := f.calls ++ rA.2 }
  else if f.self.procComponentB.processorEnabled then
    -- processor A inactive
    let rB := f.self.routeSourcesAndProcess Slot.B
    { self := rB.1
      outputBlock := f.outputBlock.copyFrom rB.1.tempBuffer
      calls := f.calls ++ rB.2 }
  else
    -- neither is active
    { f with outputBlock := f.outputBlock.clear }

/-- Lines 124-126 of `getNextAudioBlock`: run audio through the analyser, which does
not alter `outputBlock`. -/
def analyserStage (f : Frame S σ c n d k) : Frame S σ c n d k :=
  if f.self.analyserComponent.processing then
    let a := f.self.analyserComponent
    { f with
      self := { f.self with analyserComponent := { a with state := a.process d k a.state f.outputBlock } }
      calls := f.calls ++ [Call.analyserProcess] }
  else
    f

/-- Lines 128-132 of `getNextAudioBlock`: run audio through the monitoring section. -/
def monitoringStage [Zero S] (f : Frame S σ c n d k) : Frame S σ c n d k :=
  if f.self.monitoringComponent.muted then
    { f with outputBlock := f.outputBlock.clear }
  else
    let mon := f.self.monitoringComponent
    let r := mon.process d k mon.state f.outputBlock
    { self := { f.self with monitoringComponent := { mon with state := r.1 } }
      outputBlock := r.2
      calls := f.calls ++ [Call.monitoringProcess] }

/-- Lines 134-143 of `getNextAudioBlock`: while the hold is armed the samples of the
block are counted; past `holdSize` the analyser is suspended and a job closing the
audio device is handed to the thread pool. -/
def holdStage (numSamples : Int) (f : Frame S σ c n d k) : Frame S σ c n d k :=
  if f.self.holdAudio then
    let counted : MainContentComponent S σ c n :=
      { f.self with sampleCounter := f.self.sampleCounter + numSamples }
    if counted.sampleCounter > counted.holdSize then
      { f with
        self := { counted with analyserComponent := counted.analyserComponent.suspendProcessing }
        calls := f.calls ++ [Call.analyserSuspendProcessing, Call.addJobCloseAudioDevice] }
    else
      { f with self := counted }
  else
    f

/-- `MainContentComponent::getNextAudioBlock (bufferToFill)`. -/
def getNextAudioBlock [Zero S] [One S] [Add S] [Mul S] [Neg S]
    (m : MainContentComponent S σ c n) (bufferToFill : AudioSourceChannelInfo S d k) :
    Frame S σ c n d k :=
  holdStage bufferToFill.numSamples
    (monitoringStage (analyserStage (processorStage (sourceStage m bufferToFill))))

/-- `MainContentComponent::prepareToPlay (samplesPerBlockExpected, sampleRate)`.
`numInputChannels` and `numOutputChannels` are the numbers of active channels of the
current audio device; the three `...BufferMemory` arguments are the contents of the
newly allocated scratch buffers. -/
def prepareToPlay (m : MainContentComponent S σ c n) (samplesPerBlockExpected : Nat)
    (sampleRate : ℚ) (numInputChannels numOutputChannels : Nat)
    (srcBufferMemoryA srcBufferMemoryB tempBufferMemory :
      AudioBlock S (max numInputChannels numOutputChannels) samplesPerBlockExpected) :
    MainContentComponent S σ (max numInputChannels numOutputChannels) samplesPerBlockExpected :=
  let spec : ProcessSpec :=
    { sampleRate := sampleRate
      maximumBlockSize := samplesPerBlockExpected
      numChannels := max numInputChannels numOutputChannels }
  { holdAudio := m.holdAudio
    sampleCounter := 0
    -- Oscilloscope and FftScope use 4096 sample frames
    holdSize := 4096
    srcBufferA := srcBufferMemoryA
    srcBufferB := srcBufferMemoryB
    tempBuffer := tempBufferMemory
    srcComponentA := { m.srcComponentA with state := m.srcComponentA.prepare spec m.srcComponentA.state }
    srcComponentB := { m.srcComponentB with state := m.srcComponentB.prepare spec m.srcComponentB.state }
    procComponentA :=
      { m.procComponentA with processor := m.procComponentA.prepare spec m.procComponentA.processor }
    procComponentB :=
      { m.procComponentB with processor := m.procComponentB.prepare spec m.procComponentB.processor }
    analyserComponent :=
      { m.analyserComponent with state := m.analyserComponent.prepare spec m.analyserComponent.state }
    monitoringComponent :=
      { m.monitoringComponent with
        state := m.monitoringComponent.prepare spec m.monitoringComponent.state } }

/-- `MainContentComponent::releaseResources ()`. -/
def releaseResources [Zero S] (m : MainContentComponent S σ c n) : MainContentComponent S σ c n :=
  { m with
    srcBufferA := m.srcBufferA.clear
    srcBufferB := m.srcBufferB.clear
    tempBuffer := m.tempBuffer.clear }

/-- `MainContentComponent::triggerSnapshot ()`. The calls on the collaborators are
listed in order; the `releaseResources` that closing the device causes and the
`prepareToPlay` that restarting it causes are calls of their own. -/
def triggerSnapshot (m : MainContentComponent S σ c n) :
    MainContentComponent S σ c n × List (Call S c n) :=
  let srcA := { m.srcComponentA with state := m.srcComponentA.storeWavePlayerState m.srcComponentA.state }
  let srcB := { m.srcComponentB with state := m.srcComponentB.storeWavePlayerState m.srcComponentB.state }
  -- Reset components to ensure consistent behaviour for hold function
  let srcA := { srcA with state := srcA.prepForSnapShot srcA.state }
  let srcB := { srcB with state := srcB.prepForSnapShot srcB.state }
  let procA := { m.procComponentA with processor := m.procComponentA.reset m.procComponentA.processor }
  let procB := { m.procComponentB with processor := m.procComponentB.reset m.procComponentB.processor }
  let analyser := { m.analyserComponent with state := m.analyserComponent.reset m.analyserComponent.state }
  let monitoring :=
    { m.monitoringComponent with state := m.monitoringComponent.reset m.monitoringComponent.state }
  -- Ensure the analyser is not paused
  let analyser := analyser.activateProcessing
  -- Set a flag & sample counter so we can stop the device again
  ({ m with
      holdAudio := true
      sampleCounter := 0
      srcComponentA := srcA
      srcComponentB := srcB
      procComponentA := procA
      procComponentB := procB
      analyserComponent := analyser
      monitoringComponent := monitoring },
    [Call.storeWavePlayerState Slot.A, Call.storeWavePlayerState Slot.B, Call.closeAudioDevice,
      Call.prepForSnapShot Slot.A, Call.prepForSnapShot Slot.B, Call.processorReset Slot.A,
      Call.processorReset Slot.B, Call.analyserReset, Call.monitoringReset,
      Call.analyserActivateProcessing, Call.restartLastAudioDevice])

/-- `MainContentComponent::resumeStreaming ()`. -/
def resumeStreaming (m : MainContentComponent S σ c n) :
    MainContentComponent S σ c n × List (Call S c n) :=
  ({ m with
      analyserComponent := m.analyserComponent.activateProcessing
      holdAudio := false },
    [Call.analyserActivateProcessing, Call.restartLastAudioDevice])

/-- The audio device calling `getNextAudioBlock` once for each block of `blocks`, in
order: the component after the last block and the calls made on the way. -/
def runBlocks [Zero S] [One S] [Add S] [Mul S] [Neg S] (m : MainContentComponent S σ c n) :
    List (AudioSourceChannelInfo S d k) → MainContentComponent S σ c n × List (Call S c n)
  | [] => (m, [])
  | b :: bs =>
    let r := m.getNextAudioBlock b
    let rest := runBlocks r.self bs
    (rest.1, r.calls ++ rest.2)

end MainContentComponent

/-! ## ParametricEQ -/

namespace ParametricEQ

/-- The control enum of `ParametricEQ.h`. -/
def frequencyControl : Int := 0

/-- The control enum of `ParametricEQ.h`. -/
def gainControl : Int := 1

/-- The control enum of `ParametricEQ.h`. -/
def numControls : Int := 2

/-- `ParametricEQ::getDefaultControlValue (index)`; the `double` literals are exact
rationals. -/
def getDefaultControlValue (index : Int) : ℚ :=
  if index = frequencyControl then 440
  else if index = gainControl then 0
  else 0

/-- `ParametricEQ::getControlRange (index)`, as (start, end). -/
def getControlRange (index : Int) : ℚ × ℚ :=
  if index = frequencyControl then (20, 20000)
  else if index = gainControl then (-36, 36)
  else (0, 1)

/-- `ParametricEQ::prepare (spec)`: the only member, `numChannels`, is set from the spec. -/
def prepare (spec : ProcessSpec) (_numChannels : Nat) : Nat :=
  spec.numChannels

/-- `ParametricEQ::process (context)`: the output block is a copy of the input block. -/
def process {S : Type} (c n : Nat) (numChannels : Nat) (block : AudioBlock S c n) :
    Nat × AudioBlock S c n :=
  (numChannels, block.copyFrom block)

/-- `ParametricEQ::reset ()`: empty. -/
def reset (numChannels : Nat) : Nat :=
  numChannels

end ParametricEQ

/-! ## ProcessorHarness: duration statistics -/

/-- The value of the `double` literal `1.0E100`: the double nearest to `10 ^ 100`,
`0x1.249ad2594c37dp+332`. -/
def double1E100 : ℚ := 5147557589468029 * 2 ^ 280

/-- The duration statistics members of `ProcessorHarness`, with the values the member
declarations of `ProcessorHarness.h` (lines 129-131) give them. Durations are in
milliseconds; the `double`s are rationals here. -/
structure ProcessorHarness where
  prepDurationMin : ℚ := double1E100
  prepDurationMax : ℚ := -1
  prepDurationSum : ℚ := 0
  prepDurationCount : ℚ := 0
  procDurationMin : ℚ := double1E100
  procDurationMax : ℚ := -1
  procDurationSum : ℚ := 0
  procDurationCount : ℚ := 0
  resetDurationMin : ℚ := double1E100
  resetDurationMax : ℚ := -1
  resetDurationSum : ℚ := 0
  resetDurationCount : ℚ := 0

namespace ProcessorHarness

/-- Modelled from the spec: `prepareHarness` is declared in `ProcessorHarness.h`, its
body is not among the sources. The duration of the wrapped call, here the argument
`d`, is folded into the statistics of that call by `min = min (min, d)`,
`max = max (max, d)`, `sum += d`, `count += 1`. -/
def prepareHarness (h : ProcessorHarness) (d : ℚ) : ProcessorHarness :=
  { h with
    prepDurationMin := min h.prepDurationMin d
    prepDurationMax := max h.prepDurationMax d
    prepDurationSum := h.prepDurationSum + d
    prepDurationCount := h.prepDurationCount + 1 }

/-- Modelled from the spec: `processHarness` is declared in `ProcessorHarness.h`, its
body is not among the sources. The duration `d` of the wrapped call is folded into the
statistics of that call by the same rule. -/
def processHarness (h : ProcessorHarness) (d : ℚ) : ProcessorHarness :=
  { h with
    procDurationMin := min h.procDurationMin d
    procDurationMax := max h.procDurationMax d
    procDurationSum := h.procDurationSum + d
    procDurationCount := h.procDurationCount + 1 }

/-- Modelled from the spec: `resetHarness` is declared in `ProcessorHarness.h`, its
body is not among the sources. The duration `d` of the wrapped call is folded into the
statistics of that call by the same rule. -/
def resetHarness (h : ProcessorHarness) (d : ℚ) : ProcessorHarness :=
  { h with
    resetDurationMin := min h.resetDurationMin d
    resetDurationMax := max h.resetDurationMax d
    resetDurationSum := h.resetDurationSum + d
    resetDurationCount := h.resetDurationCount + 1 }

end ProcessorHarness

/-! ## The routing described by the specification and a concrete bench -/

/-- The slot input in the words of the specification (4.3): both sources connected,
the elementwise sum of source A and B; only A connected, A; only B connected, B;
neither connected, silence. -/
def slotInput {S : Type} {c n : Nat} [Zero S] [Add S] (sourceAConnected sourceBConnected : Bool)
    (A B : AudioBlock S c n) : AudioBlock S c n :=
  match sourceAConnected, sourceBConnected with
  | true, true => A + B
  | true, false => A
  | false, true => B
  | false, false => 0

namespace Example

/-- A source that leaves its buffer as it is. -/
def source : SourceComponent ℚ Nat :=
  { mode := Mode.Generated
    state := 0
    prepare := fun _ s => s
    process := fun _ _ s b => (s, b)
    storeWavePlayerState := fun s => s
    prepForSnapShot := fun s => s }

/-- A slot holding the pass-through `ParametricEQ`, with the given flags. -/
def slot (sourceConnectedA sourceConnectedB processorEnabled inverted : Bool) :
    ProcessorComponent ℚ Nat :=
  { sourceConnectedA := sourceConnectedA
    sourceConnectedB := sourceConnectedB
    processorEnabled := processorEnabled
    inverted := inverted
    processor := 0
    prepare := ParametricEQ.prepare
    process := fun c n => ParametricEQ.process c n
    reset := ParametricEQ.reset }

/-- An analyser whose state counts the blocks it has seen. -/
def analyser : AnalyserComponent ℚ Nat :=
  { processing := true
    state := 0
    prepare := fun _ s => s
    process := fun _ _ s _ => s + 1
    reset := fun _ => 0 }

/-- A monitoring section that halves every sample. -/
def monitoring (muted : Bool) : MonitoringComponent ℚ Nat :=
  { muted := muted
    state := 0
    prepare := fun _ s => s
    process := fun _ _ s b => (s, b.multiplyBy (1 / 2))
    reset := fun s => s }

/-- A bench of two channels and four samples per block: source buffer A holds the
constant `a`, source buffer B the constant `b`. -/
def bench (a b : ℚ) (holdAudio muted : Bool) (procA procB : ProcessorComponent ℚ Nat) :
    MainContentComponent ℚ Nat 2 4 :=
  { holdAudio := holdAudio
    sampleCounter := 0
    holdSize := 4096
    srcBufferA := AudioBlock.const a
    srcBufferB := AudioBlock.const b
    tempBuffer := AudioBlock.const 7
    srcComponentA := source
    srcComponentB := source
    procComponentA := procA
    procComponentB := procB
    analyserComponent := analyser
    monitoringComponent := monitoring muted }

/-- A device buffer of two channels and four samples, asking for `numSamples` samples. -/
def deviceBuffer (numSamples : Int) : AudioSourceChannelInfo ℚ 2 4 :=
  { buffer := AudioBlock.const 9, numSamples := numSamples }

/-- The bench after a snapshot request and the `prepareToPlay` of the restarted device
(two input and two output channels, blocks of four samples). -/
def armedBench : MainContentComponent ℚ Nat (max 2 2) 4 :=
  (Example.bench 1 2 false false (Example.slot true false true false)
    (Example.slot false true true false)).triggerSnapshot.1.prepareToPlay 4 48000 2 2
    (AudioBlock.const 0) (AudioBlock.const 0) (AudioBlock.const 0)

/-- Nine device blocks asking for 512 samples each. -/
def blocks512 : List (AudioSourceChannelInfo ℚ 2 4) :=
  List.replicate 9 (deviceBuffer 512)

end Example

/-! ## Facts about the block operations -/

namespace AudioBlock

variable {S : Type} {c n : Nat}

theorem copyFrom_same (dst src : AudioBlock S c n) : dst.copyFrom src = src := by
  ext ch i
  simp [copyFrom]

theorem add_same [Add S] (dst src : AudioBlock S c n) : dst.add src = dst + src := by
  ext ch i
  simp only [add, ch.isLt, i.isLt, and_self, dite_true, Fin.eta]
  rfl

theorem clear_eq [Zero S] (dst : AudioBlock S c n) : dst.clear = 0 := rfl

theorem add_data [Add S] (a b : AudioBlock S c n) (ch : Fin c) (i : Fin n) :
    (a + b).data ch i = a.data ch i + b.data ch i := rfl

theorem zero_data [Zero S] (ch : Fin c) (i : Fin n) : (0 : AudioBlock S c n).data ch i = 0 := rfl

end AudioBlock

/-! ## Facts about `routeSourcesAndProcess` -/

namespace MainContentComponent

variable {S σ : Type} {c n d k : Nat} [Zero S] [One S] [Add S] [Mul S] [Neg S]

/-- The buffer that `routeSourcesAndProcess` hands to the processor is the slot input
of the specification. -/
theorem route_calls (m : MainContentComponent S σ c n) (slot : Slot) :
    (m.routeSourcesAndProcess slot).2 =
      [Call.processorProcess slot
        (slotInput (m.procComponent slot).sourceConnectedA (m.procComponent slot).sourceConnectedB
          m.srcBufferA m.srcBufferB)] := by
  unfold routeSourcesAndProcess slotInput
  cases hA : (m.procComponent slot).sourceConnectedA <;>
    cases hB : (m.procComponent slot).sourceConnectedB <;>
    simp [hA, hB, AudioBlock.copyFrom_same, AudioBlock.add_same, AudioBlock.clear_eq]

/-- The temporary buffer that `routeSourcesAndProcess` leaves. -/
theorem route_tempBuffer (m : MainContentComponent S σ c n) (slot : Slot) :
    (m.routeSourcesAndProcess slot).1.tempBuffer =
      if (m.procComponent slot).inverted then
        (((m.procComponent slot).process c n (m.procComponent slot).processor
          (slotInput (m.procComponent slot).sourceConnectedA
            (m.procComponent slot).sourceConnectedB m.srcBufferA m.srcBufferB)).2).multiplyBy (-1)
      else
        ((m.procComponent slot).process c n (m.procComponent slot).processor
          (slotInput (m.procComponent slot).sourceConnectedA
            (m.procComponent slot).sourceConnectedB m.srcBufferA m.srcBufferB)).2 := by
  unfold routeSourcesAndProcess slotInput
  cases hA : (m.procComponent slot).sourceConnectedA <;>
    cases hB : (m.procComponent slot).sourceConnectedB <;>
    simp [hA, hB, AudioBlock.copyFrom_same, AudioBlock.add_same, AudioBlock.clear_eq]

@[simp] theorem route_srcBufferA (m : MainContentComponent S σ c n) (slot : Slot) :
    (m.routeSourcesAndProcess slot).1.srcBufferA = m.srcBufferA := by
  cases slot <;> rfl

@[simp] theorem route_srcBufferB (m : MainContentComponent S σ c n) (slot : Slot) :
    (m.routeSourcesAndProcess slot).1.srcBufferB = m.srcBufferB := by
  cases slot <;> rfl

@[simp] theorem route_A_procComponentB (m : MainContentComponent S σ c n) :
    (m.routeSourcesAndProcess Slot.A).1.procComponentB = m.procComponentB := rfl

@[simp] theorem route_B_procComponentA (m : MainContentComponent S σ c n) :
    (m.routeSourcesAndProcess Slot.B).1.procComponentA = m.procComponentA := rfl

@[simp] theorem route_holdAudio (m : MainContentComponent S σ c n) (slot : Slot) :
    (m.routeSourcesAndProcess slot).1.holdAudio = m.holdAudio := by
  cases slot <;> rfl

@[simp] theorem route_sampleCounter (m : MainContentComponent S σ c n) (slot : Slot) :
    (m.routeSourcesAndProcess slot).1.sampleCounter = m.sampleCounter := by
  cases slot <;> rfl

@[simp] theorem route_holdSize (m : MainContentComponent S σ c n) (slot : Slot) :
    (m.routeSourcesAndProcess slot).1.holdSize = m.holdSize := by
  cases slot <;> rfl

@[simp] theorem route_analyserComponent (m : MainContentComponent S σ c n) (slot : Slot) :
    (m.routeSourcesAndProcess slot).1.analyserComponent = m.analyserComponent := by
  cases slot <;> rfl

@[simp] theorem route_monitoringComponent (m : MainContentComponent S σ c n) (slot : Slot) :
    (m.routeSourcesAndProcess slot).1.monitoringComponent = m.monitoringComponent := by
  cases slot <;> rfl

/-- What slot B leaves in the temporary buffer does not depend on slot A having run
before it. -/
theorem route_B_after_A (m : MainContentComponent S σ c n) :
    ((m.routeSourcesAndProcess Slot.A).1.routeSourcesAndProcess Slot.B).1.tempBuffer =
      (m.routeSourcesAndProcess Slot.B).1.tempBuffer := by
  rw [route_tempBuffer, route_tempBuffer]
  simp [procComponent]

/-! ## The claims -/

/-- C1: in `routeSourcesAndProcess`, for all source buffers A and B and every combination
of the slot's flags `sourceConnectedA`, `sourceConnectedB`, the processor's `process` is
called exactly once and the temporary buffer handed to it is A+B when both are
connected, A when only A is connected, B when only B is connected, and the all-zero
block when neither is connected. -/
theorem routeSourcesAndProcess_routing (m : MainContentComponent S σ c n) (slot : Slot) :
    ((m.procComponent slot).sourceConnectedA = true →
      (m.procComponent slot).sourceConnectedB = true →
        (m.routeSourcesAndProcess slot).2 =
          [Call.processorProcess slot (m.srcBufferA + m.srcBufferB)]) ∧
    ((m.procComponent slot).sourceConnectedA = true →
      (m.procComponent slot).sourceConnectedB = false →
        (m.routeSourcesAndProcess slot).2 = [Call.processorProcess slot m.srcBufferA]) ∧
    ((m.procComponent slot).sourceConnectedA = false →
      (m.procComponent slot).sourceConnectedB = true →
        (m.routeSourcesAndProcess slot).2 = [Call.processorProcess slot m.srcBufferB]) ∧
    ((m.procComponent slot).sourceConnectedA = false →
      (m.procComponent slot).sourceConnectedB = false →
        (m.routeSourcesAndProcess slot).2 = [Call.processorProcess slot 0]) := by
  refine ⟨?_, ?_, ?_, ?_⟩ <;> intro hA hB <;> rw [route_calls, hA, hB] <;> rfl

/-- Witness of C1 on the example bench (A = constant 1, B = constant 2), one slot
setting for each of the four flag combinations. -/
theorem routeSourcesAndProcess_routing_witness :
    (((Example.bench 1 2 false false (Example.slot true true true false)
        (Example.slot true false true false)).routeSourcesAndProcess Slot.A).2 =
      [Call.processorProcess Slot.A (AudioBlock.const 1 + AudioBlock.const 2)]) ∧
    (((Example.bench 1 2 false false (Example.slot true true true false)
        (Example.slot true false true false)).routeSourcesAndProcess Slot.B).2 =
      [Call.processorProcess Slot.B (AudioBlock.const 1)]) ∧
    (((Example.bench 1 2 false false (Example.slot false true true false)
        (Example.slot false false true false)).routeSourcesAndProcess Slot.A).2 =
      [Call.processorProcess Slot.A (AudioBlock.const 2)]) ∧
    (((Example.bench 1 2 false false (Example.slot false true true false)
        (Example.slot false false true false)).routeSourcesAndProcess Slot.B).2 =
      [Call.processorProcess Slot.B 0]) :=
  ⟨(routeSourcesAndProcess_routing
      (Example.bench 1 2 false false (Example.slot true true true false)
        (Example.slot true false true false)) Slot.A).1 rfl rfl,
    (routeSourcesAndProcess_routing
      (Example.bench 1 2 false false (Example.slot true true true false)
        (Example.slot true false true false)) Slot.B).2.1 rfl rfl,
    (routeSourcesAndProcess_routing
      (Example.bench 1 2 false false (Example.slot false true true false)
        (Example.slot false false true false)) Slot.A).2.2.1 rfl rfl,
    (routeSourcesAndProcess_routing
      (Example.bench 1 2 false false (Example.slot false true true false)
        (Example.slot false false true false)) Slot.B).2.2.2 rfl rfl⟩

/-- C2: in `getNextAudioBlock`, with RA and RB the buffers that slot A and slot B leave
(routed input, own processing, own optional inversion), the output block before the
analyser and monitoring stages equals, on every sample the output block shares with
the scratch buffer, RA when only processor A is enabled, RB when only processor B is
enabled, RA+RB when both are enabled; it is all-zero when neither is enabled. -/
theorem getNextAudioBlock_combine (m : MainContentComponent S σ c n)
    (bufferToFill : AudioSourceChannelInfo S d k) :
    (m.getNextAudioBlock bufferToFill =
      holdStage bufferToFill.numSamples
        (monitoringStage (analyserStage (processorStage (sourceStage m bufferToFill))))) ∧
    (m.procComponentA.processorEnabled = true → m.procComponentB.processorEnabled = false →
      ∀ (ch : Fin d) (i : Fin k) (hc : ch.val < c) (hi : i.val < n),
        (processorStage (sourceStage m bufferToFill)).outputBlock.data ch i =
          ((sourceStage m bufferToFill).self.routeSourcesAndProcess Slot.A).1.tempBuffer.data
            ⟨ch.val, hc⟩ ⟨i.val, hi⟩) ∧
    (m.procComponentA.processorEnabled = false → m.procComponentB.processorEnabled = true →
      ∀ (ch : Fin d) (i : Fin k) (hc : ch.val < c) (hi : i.val < n),
        (processorStage (sourceStage m bufferToFill)).outputBlock.data ch i =
          ((sourceStage m bufferToFill).self.routeSourcesAndProcess Slot.B).1.tempBuffer.data
            ⟨ch.val, hc⟩ ⟨i.val, hi⟩) ∧
    (m.procComponentA.processorEnabled = true → m.procComponentB.processorEnabled = true →
      ∀ (ch : Fin d) (i : Fin k) (hc : ch.val < c) (hi : i.val < n),
        (processorStage (sourceStage m bufferToFill)).outputBlock.data ch i =
          ((sourceStage m bufferToFill).self.routeSourcesAndProcess Slot.A).1.tempBuffer.data
              ⟨ch.val, hc⟩ ⟨i.val, hi⟩ +
            ((sourceStage m bufferToFill).self.routeSourcesAndProcess Slot.B).1.tempBuffer.data
              ⟨ch.val, hc⟩ ⟨i.val, hi⟩) ∧
    (m.procComponentA.processorEnabled = false → m.procComponentB.processorEnabled = false →
      ∀ (ch : Fin d) (i : Fin k),
        (processorStage (sourceStage m bufferToFill)).outputBlock.data ch i = 0) := by
  have eA : (sourceStage m bufferToFill).self.procComponentA = m.procComponentA := rfl
  have eB : (sourceStage m bufferToFill).self.procComponentB = m.procComponentB := rfl
  refine ⟨rfl, ?_, ?_, ?_, ?_⟩
  · intro hA hB ch i hc hi
    simp [processorStage, eA, eB, hA, hB, AudioBlock.copyFrom, hc, hi]
  · intro hA hB ch i hc hi
    simp [processorStage, eA, eB, hA, hB, AudioBlock.copyFrom, hc, hi]
  · intro hA hB ch i hc hi
    simp [processorStage, eA, eB, hA, hB, AudioBlock.copyFrom, AudioBlock.add, hc, hi,
      route_B_after_A]
  · intro hA hB ch i
    simp [processorStage, eA, eB, hA, hB, AudioBlock.clear]

/-- Witness of C2, the scenario of the specification: both processors enabled, slot A
leaves the constant 2, slot B (inverted, fed the constant 1/2) leaves the constant
-1/2; the combined output is the constant 3/2. -/
theorem getNextAudioBlock_combine_witness :
    ∀ (ch : Fin 2) (i : Fin 4),
      (processorStage (sourceStage
        (Example.bench 2 (1 / 2) false false (Example.slot true false true false)
          (Example.slot false true true true)) (Example.deviceBuffer 4))).outputBlock.data ch i =
        3 / 2 := by
  intro ch i
  rw [(getNextAudioBlock_combine
        (Example.bench 2 (1 / 2) false false (Example.slot true false true false)
          (Example.slot false true true true)) (Example.deviceBuffer 4)).2.2.2.1 rfl rfl ch i
        ch.isLt i.isLt]
  simp [route_tempBuffer, sourceStage, procComponent, Example.bench, Example.slot, Example.source,
    slotInput, ParametricEQ.process, AudioBlock.copyFrom_same, AudioBlock.multiplyBy,
    AudioBlock.const]
  norm_num

/-- C4: for a slot whose inverted flag is set, the buffer left by `routeSourcesAndProcess`
is the processor's output on the routed input with every sample multiplied by -1;
when the flag is clear it is the processor's output unchanged. -/
theorem routeSourcesAndProcess_inversion (m : MainContentComponent S σ c n) (slot : Slot) :
    ((m.procComponent slot).inverted = true →
      ∀ (ch : Fin c) (i : Fin n),
        (m.routeSourcesAndProcess slot).1.tempBuffer.data ch i =
          ((m.procComponent slot).process c n (m.procComponent slot).processor
            (slotInput (m.procComponent slot).sourceConnectedA
              (m.procComponent slot).sourceConnectedB m.srcBufferA m.srcBufferB)).2.data ch i
            * (-1)) ∧
    ((m.procComponent slot).inverted = false →
      (m.routeSourcesAndProcess slot).1.tempBuffer =
        ((m.procComponent slot).process c n (m.procComponent slot).processor
          (slotInput (m.procComponent slot).sourceConnectedA
            (m.procComponent slot).sourceConnectedB m.srcBufferA m.srcBufferB)).2) := by
  constructor
  · intro h ch i
    rw [route_tempBuffer, h]
    rfl
  · intro h
    rw [route_tempBuffer, h]
    rfl

/-- Witness of C4, the scenario of the specification: an inverted slot holding the
pass-through processor, fed the constant 1, leaves the constant -1; the same slot
without inversion leaves the constant 1. -/
theorem routeSourcesAndProcess_inversion_witness :
    (∀ (ch : Fin 2) (i : Fin 4),
      ((Example.bench 1 0 false false (Example.slot true false true true)
        (Example.slot true false true false)).routeSourcesAndProcess Slot.A).1.tempBuffer.data ch i
        = -1) ∧
    ((Example.bench 1 0 false false (Example.slot true false true true)
        (Example.slot true false true false)).routeSourcesAndProcess Slot.B).1.tempBuffer =
      AudioBlock.const 1 := by
  constructor
  · intro ch i
    rw [(routeSourcesAndProcess_inversion
          (Example.bench 1 0 false false (Example.slot true false true true)
            (Example.slot true false true false)) Slot.A).1 rfl ch i]
    simp [procComponent, Example.bench, Example.slot, slotInput, ParametricEQ.process,
      AudioBlock.copyFrom_same, AudioBlock.const]
  · rw [(routeSourcesAndProcess_inversion
          (Example.bench 1 0 false false (Example.slot true false true true)
            (Example.slot true false true false)) Slot.B).2 rfl]
    simp [procComponent, Example.bench, Example.slot, slotInput, ParametricEQ.process,
      AudioBlock.copyFrom_same]

/-! ## Facts about the hold -/

omit [Zero S] [One S] [Add S] [Mul S] [Neg S] in
theorem sourceStage_hold (m : MainContentComponent S σ c n)
    (bufferToFill : AudioSourceChannelInfo S d k) :
    (sourceStage m bufferToFill).self.holdAudio = m.holdAudio ∧
    (sourceStage m bufferToFill).self.sampleCounter = m.sampleCounter ∧
    (sourceStage m bufferToFill).self.holdSize = m.holdSize :=
  ⟨rfl, rfl, rfl⟩

theorem processorStage_hold (f : Frame S σ c n d k) :
    (processorStage f).self.holdAudio = f.self.holdAudio ∧
    (processorStage f).self.sampleCounter = f.self.sampleCounter ∧
    (processorStage f).self.holdSize = f.self.holdSize := by
  cases hA : f.self.procComponentA.processorEnabled <;>
    cases hB : f.self.procComponentB.processorEnabled <;>
    simp [processorStage, hA, hB]

omit [Zero S] [One S] [Add S] [Mul S] [Neg S] in
theorem analyserStage_hold (f : Frame S σ c n d k) :
    (analyserStage f).self.holdAudio = f.self.holdAudio ∧
    (analyserStage f).self.sampleCounter = f.self.sampleCounter ∧
    (analyserStage f).self.holdSize = f.self.holdSize := by
  cases h : f.self.analyserComponent.processing <;> simp [analyserStage, h]

omit [One S] [Add S] [Mul S] [Neg S] in
theorem monitoringStage_hold (f : Frame S σ c n d k) :
    (monitoringStage f).self.holdAudio = f.self.holdAudio ∧
    (monitoringStage f).self.sampleCounter = f.self.sampleCounter ∧
    (monitoringStage f).self.holdSize = f.self.holdSize := by
  cases h : f.self.monitoringComponent.muted <;> simp [monitoringStage, h]

/-- The stages before the hold logic leave the three hold members as they are. -/
theorem beforeHold_hold (m : MainContentComponent S σ c n)
    (bufferToFill : AudioSourceChannelInfo S d k) :
    (monitoringStage (analyserStage (processorStage (sourceStage m bufferToFill)))).self.holdAudio
        = m.holdAudio ∧
    (monitoringStage (analyserStage (processorStage (sourceStage m bufferToFill)))).self.sampleCounter
        = m.sampleCounter ∧
    (monitoringStage (analyserStage (processorStage (sourceStage m bufferToFill)))).self.holdSize
        = m.holdSize := by
  obtain ⟨a1, a2, a3⟩ := sourceStage_hold m bufferToFill
  obtain ⟨b1, b2, b3⟩ := processorStage_hold (sourceStage m bufferToFill)
  obtain ⟨c1, c2, c3⟩ := analyserStage_hold (processorStage (sourceStage m bufferToFill))
  obtain ⟨d1, d2, d3⟩ :=
    monitoringStage_hold (analyserStage (processorStage (sourceStage m bufferToFill)))
  exact ⟨by rw [d1, c1, b1, a1], by rw [d2, c2, b2, a2], by rw [d3, c3, b3, a3]⟩

theorem processorStage_calls (f : Frame S σ c n d k) :
    (Call.analyserSuspendProcessing ∈ (processorStage f).calls ↔
      Call.analyserSuspendProcessing ∈ f.calls) ∧
    (Call.addJobCloseAudioDevice ∈ (processorStage f).calls ↔
      Call.addJobCloseAudioDevice ∈ f.calls) := by
  cases hA : f.self.procComponentA.processorEnabled <;>
    cases hB : f.self.procComponentB.processorEnabled <;>
    simp [processorStage, hA, hB, route_calls]

omit [Zero S] [One S] [Add S] [Mul S] [Neg S] in
theorem analyserStage_calls (f : Frame S σ c n d k) :
    (Call.analyserSuspendProcessing ∈ (analyserStage f).calls ↔
      Call.analyserSuspendProcessing ∈ f.calls) ∧
    (Call.addJobCloseAudioDevice ∈ (analyserStage f).calls ↔
      Call.addJobCloseAudioDevice ∈ f.calls) := by
  cases h : f.self.analyserComponent.processing <;> simp [analyserStage, h]

omit [One S] [Add S] [Mul S] [Neg S] in
theorem monitoringStage_calls (f : Frame S σ c n d k) :
    (Call.analyserSuspendProcessing ∈ (monitoringStage f).calls ↔
      Call.analyserSuspendProcessing ∈ f.calls) ∧
    (Call.addJobCloseAudioDevice ∈ (monitoringStage f).calls ↔
      Call.addJobCloseAudioDevice ∈ f.calls) := by
  cases h : f.self.monitoringComponent.muted <;> simp [monitoringStage, h]

/-- The stages before the hold logic neither suspend the analyser nor ask for the
device to be closed. -/
theorem beforeHold_calls (m : MainContentComponent S σ c n)
    (bufferToFill : AudioSourceChannelInfo S d k) :
    Call.analyserSuspendProcessing ∉
      (monitoringStage (analyserStage (processorStage (sourceStage m bufferToFill)))).calls ∧
    Call.addJobCloseAudioDevice ∉
      (monitoringStage (analyserStage (processorStage (sourceStage m bufferToFill)))).calls := by
  rw [(monitoringStage_calls _).1, (monitoringStage_calls _).2, (analyserStage_calls _).1,
    (analyserStage_calls _).2, (processorStage_calls _).1, (processorStage_calls _).2]
  simp [sourceStage]

/-- What one callback does to the hold: the flag and the hold size stay, the counter
grows by the block length exactly when the hold is armed, and the analyser is
suspended and the device closure requested exactly when the hold is armed and the
new counter exceeds the hold size. -/
theorem getNextAudioBlock_hold (m : MainContentComponent S σ c n)
    (bufferToFill : AudioSourceChannelInfo S d k) :
    (m.getNextAudioBlock bufferToFill).self.holdAudio = m.holdAudio ∧
    (m.getNextAudioBlock bufferToFill).self.holdSize = m.holdSize ∧
    (m.getNextAudioBlock bufferToFill).self.sampleCounter =
      (if m.holdAudio then m.sampleCounter + bufferToFill.numSamples else m.sampleCounter) ∧
    (Call.analyserSuspendProcessing ∈ (m.getNextAudioBlock bufferToFill).calls ↔
      m.holdAudio = true ∧ m.sampleCounter + bufferToFill.numSamples > m.holdSize) ∧
    (Call.addJobCloseAudioDevice ∈ (m.getNextAudioBlock bufferToFill).calls ↔
      m.holdAudio = true ∧ m.sampleCounter + bufferToFill.numSamples > m.holdSize) := by
  obtain ⟨h1, h2, h3⟩ := beforeHold_hold m bufferToFill
  obtain ⟨n1, n2⟩ := beforeHold_calls m bufferToFill
  unfold getNextAudioBlock holdStage
  generalize monitoringStage (analyserStage (processorStage (sourceStage m bufferToFill))) = f
    at h1 h2 h3 n1 n2
  rw [← h1, ← h2, ← h3]
  cases hh : f.self.holdAudio
  · simp [hh, n1, n2]
  · by_cases hc : f.self.holdSize < f.self.sampleCounter + bufferToFill.numSamples
    · simp [hh, hc]
    · simp [hh, hc, n1, n2]

/-- While the hold is armed, a run of blocks of `B` samples each adds `B` to the
counter for every block and leaves the flag and the hold size as they are. -/
theorem runBlocks_armed (B : Int) (blocks : List (AudioSourceChannelInfo S d k))
    (hblocks : ∀ b ∈ blocks, b.numSamples = B) (m : MainContentComponent S σ c n)
    (hArmed : m.holdAudio = true) :
    (m.runBlocks blocks).1.holdAudio = true ∧
    (m.runBlocks blocks).1.holdSize = m.holdSize ∧
    (m.runBlocks blocks).1.sampleCounter = m.sampleCounter + (blocks.length : Int) * B := by
  induction blocks generalizing m with
  | nil => simp [runBlocks, hArmed]
  | cons b bs ih =>
    obtain ⟨g1, g2, g3, _, _⟩ := getNextAudioBlock_hold m b
    have hb : b.numSamples = B := hblocks b (List.mem_cons_self b bs)
    obtain ⟨i1, i2, i3⟩ :=
      ih (fun x hx => hblocks x (List.mem_cons_of_mem b hx)) (m.getNextAudioBlock b).self
        (g1.trans hArmed)
    refine ⟨i1, i2.trans g2, ?_⟩
    show ((m.getNextAudioBlock b).self.runBlocks bs).1.sampleCounter = _
    rw [i3, g3, hArmed, hb]
    simp only [if_true, List.length_cons, Nat.cast_add, Nat.cast_one]
    ring

/-- C3: starting from an armed hold with `sampleCounter = 0` and hold size `S`
(`S = 4096` after `prepareToPlay`), when `getNextAudioBlock` is called repeatedly with
`numSamples = B`, `B >= 1`, the k-th call suspends the analyser, and asks the thread pool
to close the device, if and only if `k * B > S`; that is, if and only if
`k >= ceil ((S + 1) / B)`, so the first request comes on block `ceil ((S + 1) / B)` and on
no earlier block. -/
theorem getNextAudioBlock_hold_expiry (m : MainContentComponent S σ c n)
    (hArmed : m.holdAudio = true) (hZero : m.sampleCounter = 0) (B : Int) (hB : 1 ≤ B)
    (blocks : List (AudioSourceChannelInfo S d k)) (hblocks : ∀ b ∈ blocks, b.numSamples = B)
    (j : Nat) (hj1 : 1 ≤ j) (hj : j ≤ blocks.length) :
    (Call.analyserSuspendProcessing ∈
        ((m.runBlocks (blocks.take (j - 1))).1.getNextAudioBlock
          (blocks.get ⟨j - 1, by omega⟩)).calls ↔ (j : Int) * B > m.holdSize) ∧
    (Call.addJobCloseAudioDevice ∈
        ((m.runBlocks (blocks.take (j - 1))).1.getNextAudioBlock
          (blocks.get ⟨j - 1, by omega⟩)).calls ↔ (j : Int) * B > m.holdSize) ∧
    ((j : Int) * B > m.holdSize ↔ ⌈(((m.holdSize + 1 : Int) : ℚ) / (B : ℚ))⌉ ≤ (j : Int)) := by
  have hlt : j - 1 < blocks.length := by omega
  obtain ⟨r1, r2, r3⟩ :=
    runBlocks_armed B (blocks.take (j - 1))
      (fun x hx => hblocks x (List.mem_of_mem_take hx)) m hArmed
  have hlen : ((blocks.take (j - 1)).length : Int) = (j : Int) - 1 := by
    rw [List.length_take, Nat.min_eq_left (by omega)]
    omega
  have hb : (blocks.get ⟨j - 1, hlt⟩).numSamples = B := hblocks _ (List.get_mem blocks _ _)
  obtain ⟨_, _, _, s1, s2⟩ :=
    getNextAudioBlock_hold (m.runBlocks (blocks.take (j - 1))).1 (blocks.get ⟨j - 1, hlt⟩)
  have key : (m.runBlocks (blocks.take (j - 1))).1.sampleCounter +
      (blocks.get ⟨j - 1, hlt⟩).numSamples = (j : Int) * B := by
    rw [r3, hZero, hlen, hb]
    ring
  rw [key, r1, r2] at s1 s2
  refine ⟨by simpa using s1, by simpa using s2, ?_⟩
  have hBq : (0 : ℚ) < (B : ℚ) := by exact_mod_cast (by omega : (0 : Int) < B)
  rw [Int.ceil_le, div_le_iff₀ hBq]
  constructor
  · intro h
    exact_mod_cast (by omega : m.holdSize + 1 ≤ (j : Int) * B)
  · intro h
    have h2 : m.holdSize + 1 ≤ (j : Int) * B := by exact_mod_cast h
    omega

/-- Witness of C3, the scenario of the specification: after a snapshot request and
`prepareToPlay` the hold size is 4096; with blocks of 512 samples neither the
suspension nor the close request happens on the 8th block, both happen on the 9th. -/
theorem getNextAudioBlock_hold_expiry_witness :
    Example.armedBench.holdSize = 4096 ∧
    (Call.analyserSuspendProcessing ∉
      ((Example.armedBench.runBlocks (Example.blocks512.take (8 - 1))).1.getNextAudioBlock
        (Example.blocks512.get ⟨8 - 1, by decide⟩)).calls) ∧
    (Call.addJobCloseAudioDevice ∉
      ((Example.armedBench.runBlocks (Example.blocks512.take (8 - 1))).1.getNextAudioBlock
        (Example.blocks512.get ⟨8 - 1, by decide⟩)).calls) ∧
    (Call.analyserSuspendProcessing ∈
      ((Example.armedBench.runBlocks (Example.blocks512.take (9 - 1))).1.getNextAudioBlock
        (Example.blocks512.get ⟨9 - 1, by decide⟩)).calls) ∧
    (Call.addJobCloseAudioDevice ∈
      ((Example.armedBench.runBlocks (Example.blocks512.take (9 - 1))).1.getNextAudioBlock
        (Example.blocks512.get ⟨9 - 1, by decide⟩)).calls) := by
  have hmem : ∀ b ∈ Example.blocks512, b.numSamples = 512 := by
    intro b hb
    rw [List.eq_of_mem_replicate hb]
    rfl
  have hS : Example.armedBench.holdSize = 4096 := rfl
  have h8 := getNextAudioBlock_hold_expiry Example.armedBench rfl rfl 512 (by norm_num)
    Example.blocks512 hmem 8 (by norm_num) (by decide)
  have h9 := getNextAudioBlock_hold_expiry Example.armedBench rfl rfl 512 (by norm_num)
    Example.blocks512 hmem 9 (by norm_num) (by decide)
  rw [hS] at h8 h9
  exact ⟨hS, fun h => absurd (h8.1.mp h) (by norm_num), fun h => absurd (h8.2.1.mp h) (by norm_num),
    h9.1.mpr (by norm_num), h9.2.1.mpr (by norm_num)⟩

/-! ## Facts about a disabled slot -/

theorem processorStage_disabled_A (f : Frame S σ c n d k)
    (h : f.self.procComponentA.processorEnabled = false) :
    (processorStage f).self.procComponentA = f.self.procComponentA ∧
    ∀ buffer, (Call.processorProcess Slot.A buffer ∈ (processorStage f).calls ↔
      Call.processorProcess Slot.A buffer ∈ f.calls) := by
  cases hB : f.self.procComponentB.processorEnabled <;>
    simp [processorStage, h, hB, route_calls]

theorem processorStage_disabled_B (f : Frame S σ c n d k)
    (h : f.self.procComponentB.processorEnabled = false) :
    (processorStage f).self.procComponentB = f.self.procComponentB ∧
    ∀ buffer, (Call.processorProcess Slot.B buffer ∈ (processorStage f).calls ↔
      Call.processorProcess Slot.B buffer ∈ f.calls) := by
  cases hA : f.self.procComponentA.processorEnabled <;>
    simp [processorStage, h, hA, route_calls]

omit [Zero S] [One S] [Add S] [Mul S] [Neg S] in
theorem analyserStage_proc (f : Frame S σ c n d k) :
    (analyserStage f).self.procComponentA = f.self.procComponentA ∧
    (analyserStage f).self.procComponentB = f.self.procComponentB ∧
    ∀ slot buffer, (Call.processorProcess slot buffer ∈ (analyserStage f).calls ↔
      Call.processorProcess slot buffer ∈ f.calls) := by
  cases h : f.self.analyserComponent.processing <;> simp [analyserStage, h]

omit [One S] [Add S] [Mul S] [Neg S] in
theorem monitoringStage_proc (f : Frame S σ c n d k) :
    (monitoringStage f).self.procComponentA = f.self.procComponentA ∧
    (monitoringStage f).self.procComponentB = f.self.procComponentB ∧
    ∀ slot buffer, (Call.processorProcess slot buffer ∈ (monitoringStage f).calls ↔
      Call.processorProcess slot buffer ∈ f.calls) := by
  cases h : f.self.monitoringComponent.muted <;> simp [monitoringStage, h]

omit [Zero S] [One S] [Add S] [Mul S] [Neg S] in
theorem holdStage_proc (numSamples : Int) (f : Frame S σ c n d k) :
    (holdStage numSamples f).self.procComponentA = f.self.procComponentA ∧
    (holdStage numSamples f).self.procComponentB = f.self.procComponentB ∧
    ∀ slot buffer, (Call.processorProcess slot buffer ∈ (holdStage numSamples f).calls ↔
      Call.processorProcess slot buffer ∈ f.calls) := by
  cases hh : f.self.holdAudio
  · simp [holdStage, hh]
  · by_cases hc : f.self.holdSize < f.self.sampleCounter + numSamples <;>
      simp [holdStage, hh, hc]

/-- One callback with slot A disabled: no `process` call on slot A, and the slot is
left as it was. -/
theorem getNextAudioBlock_disabled_A (m : MainContentComponent S σ c n)
    (bufferToFill : AudioSourceChannelInfo S d k)
    (h : m.procComponentA.processorEnabled = false) :
    (m.getNextAudioBlock bufferToFill).self.procComponentA = m.procComponentA ∧
    ∀ buffer, Call.processorProcess Slot.A buffer ∉ (m.getNextAudioBlock bufferToFill).calls := by
  obtain ⟨p1, p2⟩ := processorStage_disabled_A (sourceStage m bufferToFill) h
  obtain ⟨a1, _, a3⟩ := analyserStage_proc (processorStage (sourceStage m bufferToFill))
  obtain ⟨m1, _, m3⟩ :=
    monitoringStage_proc (analyserStage (processorStage (sourceStage m bufferToFill)))
  obtain ⟨h1, _, h3⟩ := holdStage_proc bufferToFill.numSamples
    (monitoringStage (analyserStage (processorStage (sourceStage m bufferToFill))))
  unfold getNextAudioBlock
  refine ⟨by rw [h1, m1, a1, p1]; rfl, fun buffer => ?_⟩
  rw [h3, m3, a3, p2]
  simp [sourceStage]

/-- One callback with slot B disabled: no `process` call on slot B, and the slot is
left as it was. -/
theorem getNextAudioBlock_disabled_B (m : MainContentComponent S σ c n)
    (bufferToFill : AudioSourceChannelInfo S d k)
    (h : m.procComponentB.processorEnabled = false) :
    (m.getNextAudioBlock bufferToFill).self.procComponentB = m.procComponentB ∧
    ∀ buffer, Call.processorProcess Slot.B buffer ∉ (m.getNextAudioBlock bufferToFill).calls := by
  obtain ⟨p1, p2⟩ := processorStage_disabled_B (sourceStage m bufferToFill) h
  obtain ⟨_, a1, a3⟩ := analyserStage_proc (processorStage (sourceStage m bufferToFill))
  obtain ⟨_, m1, m3⟩ :=
    monitoringStage_proc (analyserStage (processorStage (sourceStage m bufferToFill)))
  obtain ⟨_, h1, h3⟩ := holdStage_proc bufferToFill.numSamples
    (monitoringStage (analyserStage (processorStage (sourceStage m bufferToFill))))
  unfold getNextAudioBlock
  refine ⟨by rw [h1, m1, a1, p1]; rfl, fun buffer => ?_⟩
  rw [h3, m3, a3, p2]
  simp [sourceStage]

omit [Zero S] [One S] [Add S] [Mul S] [Neg S] in
/-- A list of calls without a `process` call on a slot has process count zero for it. -/
theorem processCount_eq_zero (slot : Slot) (calls : List (Call S c n))
    (h : ∀ buffer, Call.processorProcess slot buffer ∉ calls) :
    Call.processCount slot calls = 0 := by
  unfold Call.processCount
  rw [List.countP_eq_zero]
  intro x hx hp
  cases x <;> simp [Call.isProcessOn] at hp
  subst hp
  exact h _ hx

theorem runBlocks_disabled_A (blocks : List (AudioSourceChannelInfo S d k))
    (m : MainContentComponent S σ c n) (h : m.procComponentA.processorEnabled = false) :
    (m.runBlocks blocks).1.procComponentA = m.procComponentA ∧
    ∀ buffer, Call.processorProcess Slot.A buffer ∉ (m.runBlocks blocks).2 := by
  induction blocks generalizing m with
  | nil => simp [runBlocks]
  | cons b bs ih =>
    obtain ⟨g1, g2⟩ := getNextAudioBlock_disabled_A m b h
    obtain ⟨i1, i2⟩ := ih (m.getNextAudioBlock b).self (by rw [g1]; exact h)
    refine ⟨i1.trans g1, fun buffer hmem => ?_⟩
    rcases List.mem_append.mp hmem with hx | hx
    · exact g2 buffer hx
    · exact i2 buffer hx

theorem runBlocks_disabled_B (blocks : List (AudioSourceChannelInfo S d k))
    (m : MainContentComponent S σ c n) (h : m.procComponentB.processorEnabled = false) :
    (m.runBlocks blocks).1.procComponentB = m.procComponentB ∧
    ∀ buffer, Call.processorProcess Slot.B buffer ∉ (m.runBlocks blocks).2 := by
  induction blocks generalizing m with
  | nil => simp [runBlocks]
  | cons b bs ih =>
    obtain ⟨g1, g2⟩ := getNextAudioBlock_disabled_B m b h
    obtain ⟨i1, i2⟩ := ih (m.getNextAudioBlock b).self (by rw [g1]; exact h)
    refine ⟨i1.trans g1, fun buffer hmem => ?_⟩
    rcases List.mem_append.mp hmem with hx | hx
    · exact g2 buffer hx
    · exact i2 buffer hx

/-- C5: a processor slot whose enabled flag is false receives no `process` call in a
call of `getNextAudioBlock`; over any number of consecutive blocks with the slot
disabled the number of `process` calls made on it is zero and the slot, with the state
of its processor, is left as it was, whatever the flags of the other slot are. -/
theorem getNextAudioBlock_disabled_slot (m : MainContentComponent S σ c n)
    (blocks : List (AudioSourceChannelInfo S d k)) :
    (m.procComponentA.processorEnabled = false →
      (∀ (bufferToFill : AudioSourceChannelInfo S d k),
        Call.processCount Slot.A (m.getNextAudioBlock bufferToFill).calls = 0) ∧
      Call.processCount Slot.A (m.runBlocks blocks).2 = 0 ∧
      (m.runBlocks blocks).1.procComponentA = m.procComponentA) ∧
    (m.procComponentB.processorEnabled = false →
      (∀ (bufferToFill : AudioSourceChannelInfo S d k),
        Call.processCount Slot.B (m.getNextAudioBlock bufferToFill).calls = 0) ∧
      Call.processCount Slot.B (m.runBlocks blocks).2 = 0 ∧
      (m.runBlocks blocks).1.procComponentB = m.procComponentB) := by
  constructor
  · intro h
    exact ⟨fun b => processCount_eq_zero _ _ (getNextAudioBlock_disabled_A m b h).2,
      processCount_eq_zero _ _ (runBlocks_disabled_A blocks m h).2,
      (runBlocks_disabled_A blocks m h).1⟩
  · intro h
    exact ⟨fun b => processCount_eq_zero _ _ (getNextAudioBlock_disabled_B m b h).2,
      processCount_eq_zero _ _ (runBlocks_disabled_B blocks m h).2,
      (runBlocks_disabled_B blocks m h).1⟩

/-- Witness of C5: on the example bench, nine blocks with slot A disabled and slot B
enabled make no `process` call on slot A; with slot B disabled and slot A enabled they
make none on slot B. -/
theorem getNextAudioBlock_disabled_slot_witness :
    Call.processCount Slot.A
      ((Example.bench 1 2 false false (Example.slot true false false false)
        (Example.slot false true true true)).runBlocks Example.blocks512).2 = 0 ∧
    Call.processCount Slot.B
      ((Example.bench 1 2 false false (Example.slot true false true false)
        (Example.slot false true false true)).runBlocks Example.blocks512).2 = 0 :=
  ⟨((getNextAudioBlock_disabled_slot
      (Example.bench 1 2 false false (Example.slot true false false false)
        (Example.slot false true true true)) Example.blocks512).1 rfl).2.1,
    ((getNextAudioBlock_disabled_slot
      (Example.bench 1 2 false false (Example.slot true false true false)
        (Example.slot false true false true)) Example.blocks512).2 rfl).2.1⟩

/-! ## Snapshot, resume and prepare -/

omit [Zero S] [One S] [Add S] [Mul S] [Neg S] in
/-- C6: from every prior state, after `triggerSnapshot` followed by the `prepareToPlay`
that the device restart causes, `sampleCounter` is 0 and `holdAudio` is true, and the
analyser has been activated: `triggerSnapshot` calls `activateProcessing` after the
resets and before restarting the device, and the analyser is active afterwards. -/
theorem triggerSnapshot_then_prepareToPlay (m : MainContentComponent S σ c n)
    (samplesPerBlockExpected : Nat) (sampleRate : ℚ) (numInputChannels numOutputChannels : Nat)
    (srcBufferMemoryA srcBufferMemoryB tempBufferMemory :
      AudioBlock S (max numInputChannels numOutputChannels) samplesPerBlockExpected) :
    (m.triggerSnapshot.1.prepareToPlay samplesPerBlockExpected sampleRate numInputChannels
        numOutputChannels srcBufferMemoryA srcBufferMemoryB tempBufferMemory).sampleCounter = 0 ∧
    (m.triggerSnapshot.1.prepareToPlay samplesPerBlockExpected sampleRate numInputChannels
        numOutputChannels srcBufferMemoryA srcBufferMemoryB tempBufferMemory).holdAudio = true ∧
    (m.triggerSnapshot.1.prepareToPlay samplesPerBlockExpected sampleRate numInputChannels
        numOutputChannels srcBufferMemoryA srcBufferMemoryB
        tempBufferMemory).analyserComponent.processing = true ∧
    m.triggerSnapshot.1.analyserComponent.processing = true ∧
    m.triggerSnapshot.2 =
      [Call.storeWavePlayerState Slot.A, Call.storeWavePlayerState Slot.B, Call.closeAudioDevice,
        Call.prepForSnapShot Slot.A, Call.prepForSnapShot Slot.B, Call.processorReset Slot.A,
        Call.processorReset Slot.B, Call.analyserReset, Call.monitoringReset,
        Call.analyserActivateProcessing, Call.restartLastAudioDevice] :=
  ⟨rfl, rfl, rfl, rfl, rfl⟩

omit [Zero S] [One S] [Add S] [Mul S] [Neg S] in
/-- C7, as amended: for every prior hold state, after `prepareToPlay` the counter is 0
and the hold size is 4096, and the armed flag `holdAudio` has the value it had
before. -/
theorem prepareToPlay_hold (m : MainContentComponent S σ c n)
    (samplesPerBlockExpected : Nat) (sampleRate : ℚ) (numInputChannels numOutputChannels : Nat)
    (srcBufferMemoryA srcBufferMemoryB tempBufferMemory :
      AudioBlock S (max numInputChannels numOutputChannels) samplesPerBlockExpected) :
    (m.prepareToPlay samplesPerBlockExpected sampleRate numInputChannels numOutputChannels
        srcBufferMemoryA srcBufferMemoryB tempBufferMemory).holdAudio = m.holdAudio ∧
    (m.prepareToPlay samplesPerBlockExpected sampleRate numInputChannels numOutputChannels
        srcBufferMemoryA srcBufferMemoryB tempBufferMemory).sampleCounter = 0 ∧
    (m.prepareToPlay samplesPerBlockExpected sampleRate numInputChannels numOutputChannels
        srcBufferMemoryA srcBufferMemoryB tempBufferMemory).holdSize = 4096 :=
  ⟨rfl, rfl, rfl⟩

/-- C7 as stated fails: on the example bench with the hold armed by a snapshot request,
the state after `prepareToPlay` is not (armed = false, counter = 0, size = 4096): the
flag is still set. -/
theorem prepareToPlay_hold_counterexample :
    (Example.bench 1 2 false false (Example.slot true false true false)
      (Example.slot false true true false)).triggerSnapshot.1.holdAudio = true ∧
    ¬ (((Example.bench 1 2 false false (Example.slot true false true false)
          (Example.slot false true true false)).triggerSnapshot.1.prepareToPlay 4 48000 2 2
          (AudioBlock.const 0) (AudioBlock.const 0) (AudioBlock.const 0)).holdAudio = false ∧
        ((Example.bench 1 2 false false (Example.slot true false true false)
          (Example.slot false true true false)).triggerSnapshot.1.prepareToPlay 4 48000 2 2
          (AudioBlock.const 0) (AudioBlock.const 0) (AudioBlock.const 0)).sampleCounter = 0 ∧
        ((Example.bench 1 2 false false (Example.slot true false true false)
          (Example.slot false true true false)).triggerSnapshot.1.prepareToPlay 4 48000 2 2
          (AudioBlock.const 0) (AudioBlock.const 0) (AudioBlock.const 0)).holdSize = 4096) := by
  refine ⟨rfl, fun h => ?_⟩
  have h1 := h.1
  simp [prepareToPlay, triggerSnapshot] at h1

/-- While the hold is not armed, a run of blocks leaves the three hold members as they
are, and neither suspends the analyser nor asks for the device to be closed. -/
theorem runBlocks_idle (blocks : List (AudioSourceChannelInfo S d k))
    (m : MainContentComponent S σ c n) (hIdle : m.holdAudio = false) :
    (m.runBlocks blocks).1.holdAudio = false ∧
    (m.runBlocks blocks).1.holdSize = m.holdSize ∧
    (m.runBlocks blocks).1.sampleCounter = m.sampleCounter ∧
    Call.analyserSuspendProcessing ∉ (m.runBlocks blocks).2 ∧
    Call.addJobCloseAudioDevice ∉ (m.runBlocks blocks).2 := by
  induction blocks generalizing m with
  | nil => simp [runBlocks, hIdle]
  | cons b bs ih =>
    obtain ⟨g1, g2, g3, g4, g5⟩ := getNextAudioBlock_hold m b
    obtain ⟨i1, i2, i3, i4, i5⟩ := ih (m.getNextAudioBlock b).self (g1.trans hIdle)
    rw [hIdle] at g3 g4 g5
    refine ⟨i1, i2.trans g2, i3.trans (by simpa using g3), fun hmem => ?_, fun hmem => ?_⟩
    · rcases List.mem_append.mp hmem with hx | hx
      · simpa using g4.mp hx
      · exact i4 hx
    · rcases List.mem_append.mp hmem with hx | hx
      · simpa using g5.mp hx
      · exact i5 hx

/-- C10: from every prior state, after `resumeStreaming` followed by the `prepareToPlay`
that the device restart causes, the hold is not armed and the analyser has been
activated; in any run of subsequent blocks the counter stays at 0, the hold stays
unarmed, the analyser is not suspended and no device closure is requested. -/
theorem resumeStreaming_then_prepareToPlay (m : MainContentComponent S σ c n)
    (samplesPerBlockExpected : Nat) (sampleRate : ℚ) (numInputChannels numOutputChannels : Nat)
    (srcBufferMemoryA srcBufferMemoryB tempBufferMemory :
      AudioBlock S (max numInputChannels numOutputChannels) samplesPerBlockExpected)
    (blocks : List (AudioSourceChannelInfo S d k)) :
    (m.resumeStreaming.1.prepareToPlay samplesPerBlockExpected sampleRate numInputChannels
        numOutputChannels srcBufferMemoryA srcBufferMemoryB tempBufferMemory).holdAudio = false ∧
    (m.resumeStreaming.1.prepareToPlay samplesPerBlockExpected sampleRate numInputChannels
        numOutputChannels srcBufferMemoryA srcBufferMemoryB
        tempBufferMemory).analyserComponent.processing = true ∧
    m.resumeStreaming.2 = [Call.analyserActivateProcessing, Call.restartLastAudioDevice] ∧
    ((m.resumeStreaming.1.prepareToPlay samplesPerBlockExpected sampleRate numInputChannels
        numOutputChannels srcBufferMemoryA srcBufferMemoryB tempBufferMemory).runBlocks
        blocks).1.sampleCounter = 0 ∧
    ((m.resumeStreaming.1.prepareToPlay samplesPerBlockExpected sampleRate numInputChannels
        numOutputChannels srcBufferMemoryA srcBufferMemoryB tempBufferMemory).runBlocks
        blocks).1.holdAudio = false ∧
    Call.analyserSuspendProcessing ∉
      ((m.resumeStreaming.1.prepareToPlay samplesPerBlockExpected sampleRate numInputChannels
        numOutputChannels srcBufferMemoryA srcBufferMemoryB tempBufferMemory).runBlocks blocks).2 ∧
    Call.addJobCloseAudioDevice ∉
      ((m.resumeStreaming.1.prepareToPlay samplesPerBlockExpected sampleRate numInputChannels
        numOutputChannels srcBufferMemoryA srcBufferMemoryB tempBufferMemory).runBlocks
        blocks).2 := by
  obtain ⟨r1, _, r3, r4, r5⟩ :=
    runBlocks_idle blocks
      (m.resumeStreaming.1.prepareToPlay samplesPerBlockExpected sampleRate numInputChannels
        numOutputChannels srcBufferMemoryA srcBufferMemoryB tempBufferMemory) rfl
  exact ⟨rfl, rfl, rfl, r3, r1, r4, r5⟩

/-! ## The monitoring section -/

/-- Up to the monitoring stage the monitoring section is not touched and its `process`
is not called; the analyser leaves the output block as it is. -/
theorem beforeMonitoring (m : MainContentComponent S σ c n)
    (bufferToFill : AudioSourceChannelInfo S d k) :
    (analyserStage (processorStage (sourceStage m bufferToFill))).self.monitoringComponent =
      m.monitoringComponent ∧
    (analyserStage (processorStage (sourceStage m bufferToFill))).outputBlock =
      (processorStage (sourceStage m bufferToFill)).outputBlock ∧
    Call.monitoringProcess ∉ (analyserStage (processorStage (sourceStage m bufferToFill))).calls := by
  have hp : (processorStage (sourceStage m bufferToFill)).self.monitoringComponent =
        m.monitoringComponent ∧
      Call.monitoringProcess ∉ (processorStage (sourceStage m bufferToFill)).calls := by
    have e : (sourceStage m bufferToFill).self.monitoringComponent = m.monitoringComponent := rfl
    have ec : (sourceStage m bufferToFill).calls =
        [Call.sourceProcess Slot.A, Call.sourceProcess Slot.B] := rfl
    cases hA : (sourceStage m bufferToFill).self.procComponentA.processorEnabled <;>
      cases hB : (sourceStage m bufferToFill).self.procComponentB.processorEnabled <;>
      simp [processorStage, hA, hB, route_calls, e, ec]
  generalize processorStage (sourceStage m bufferToFill) = f at hp ⊢
  obtain ⟨hp1, hp2⟩ := hp
  cases h : f.self.analyserComponent.processing <;> simp [analyserStage, h, hp1, hp2]

omit [Zero S] [One S] [Add S] [Mul S] [Neg S] in
theorem holdStage_output (numSamples : Int) (f : Frame S σ c n d k) :
    (holdStage numSamples f).outputBlock = f.outputBlock ∧
    (Call.monitoringProcess ∈ (holdStage numSamples f).calls ↔
      Call.monitoringProcess ∈ f.calls) := by
  cases hh : f.self.holdAudio
  · simp [holdStage, hh]
  · by_cases hc : f.self.holdSize < f.self.sampleCounter + numSamples <;>
      simp [holdStage, hh, hc]

/-- C9: in `getNextAudioBlock`, if the monitor is muted the final output block is
all-zero, whatever the sources, routing flags and processors produced, and the
monitor's `process` is not called; if it is not muted, the monitor's `process` is
called and the final output is what it makes of the routed and combined output. -/
theorem getNextAudioBlock_monitoring (m : MainContentComponent S σ c n)
    (bufferToFill : AudioSourceChannelInfo S d k) :
    (m.monitoringComponent.muted = true →
      (∀ (ch : Fin d) (i : Fin k), (m.getNextAudioBlock bufferToFill).outputBlock.data ch i = 0) ∧
      Call.monitoringProcess ∉ (m.getNextAudioBlock bufferToFill).calls) ∧
    (m.monitoringComponent.muted = false →
      (m.getNextAudioBlock bufferToFill).outputBlock =
        (m.monitoringComponent.process d k m.monitoringComponent.state
          (processorStage (sourceStage m bufferToFill)).outputBlock).2 ∧
      Call.monitoringProcess ∈ (m.getNextAudioBlock bufferToFill).calls) := by
  obtain ⟨b1, b2, b3⟩ := beforeMonitoring m bufferToFill
  unfold getNextAudioBlock
  generalize analyserStage (processorStage (sourceStage m bufferToFill)) = f at b1 b2 b3 ⊢
  obtain ⟨o1, o2⟩ := holdStage_output bufferToFill.numSamples (monitoringStage f)
  rw [o1, o2, ← b1, ← b2]
  constructor
  · intro h
    simp [monitoringStage, h, b3, AudioBlock.clear]
  · intro h
    simp [monitoringStage, h]

/-- Witness of C9 on the example bench (source A constant 1 through the pass-through
slot A, slot B disabled, a monitor that halves every sample): muted, the output is
zero and the monitor is not called; not muted, the output is the constant 1/2. -/
theorem getNextAudioBlock_monitoring_witness :
    ((∀ (ch : Fin 2) (i : Fin 4),
        ((Example.bench 1 2 false true (Example.slot true false true false)
          (Example.slot false true false false)).getNextAudioBlock
          (Example.deviceBuffer 4)).outputBlock.data ch i = 0) ∧
      Call.monitoringProcess ∉
        ((Example.bench 1 2 false true (Example.slot true false true false)
          (Example.slot false true false false)).getNextAudioBlock
          (Example.deviceBuffer 4)).calls) ∧
    ((Example.bench 1 2 false false (Example.slot true false true false)
        (Example.slot false true false false)).getNextAudioBlock
        (Example.deviceBuffer 4)).outputBlock = AudioBlock.const (1 / 2) := by
  refine ⟨(getNextAudioBlock_monitoring
      (Example.bench 1 2 false true (Example.slot true false true false)
        (Example.slot false true false false)) (Example.deviceBuffer 4)).1 rfl, ?_⟩
  rw [((getNextAudioBlock_monitoring
      (Example.bench 1 2 false false (Example.slot true false true false)
        (Example.slot false true false false)) (Example.deviceBuffer 4)).2 rfl).1]
  ext ch i
  simp [processorStage, sourceStage, route_tempBuffer, procComponent, Example.bench,
    Example.slot, Example.source, Example.monitoring, Example.deviceBuffer, slotInput,
    ParametricEQ.process, AudioBlock.copyFrom_same, AudioBlock.multiplyBy, AudioBlock.const]

/-! ## The hold while it is not armed, and after it has expired -/

/-- The stages before the hold logic leave the analyser as active as it was. -/
theorem beforeHold_processing (m : MainContentComponent S σ c n)
    (bufferToFill : AudioSourceChannelInfo S d k) :
    (monitoringStage (analyserStage (processorStage (sourceStage m
      bufferToFill)))).self.analyserComponent.processing = m.analyserComponent.processing := by
  have hp : (processorStage (sourceStage m bufferToFill)).self.analyserComponent =
      m.analyserComponent := by
    have e : (sourceStage m bufferToFill).self.analyserComponent = m.analyserComponent := rfl
    cases hA : (sourceStage m bufferToFill).self.procComponentA.processorEnabled <;>
      cases hB : (sourceStage m bufferToFill).self.procComponentB.processorEnabled <;>
      simp [processorStage, hA, hB, e]
  generalize processorStage (sourceStage m bufferToFill) = f at hp ⊢
  have ha : (analyserStage f).self.analyserComponent.processing =
      m.analyserComponent.processing := by
    cases h : f.self.analyserComponent.processing <;> simp [analyserStage, h, ← hp]
  generalize analyserStage f = g at ha ⊢
  cases h : g.self.monitoringComponent.muted <;> simp [monitoringStage, h, ha]

/-- C12: a call of `getNextAudioBlock` made while the hold is not armed leaves
`sampleCounter` (and the flag and the hold size) unchanged, does not suspend the
analyser, which stays as active as it was, and hands no close-device job to the thread
pool, whatever the block size, the counter and the hold size are. -/
theorem getNextAudioBlock_not_armed (m : MainContentComponent S σ c n)
    (bufferToFill : AudioSourceChannelInfo S d k) (hIdle : m.holdAudio = false) :
    (m.getNextAudioBlock bufferToFill).self.sampleCounter = m.sampleCounter ∧
    (m.getNextAudioBlock bufferToFill).self.holdAudio = false ∧
    (m.getNextAudioBlock bufferToFill).self.holdSize = m.holdSize ∧
    Call.analyserSuspendProcessing ∉ (m.getNextAudioBlock bufferToFill).calls ∧
    (m.getNextAudioBlock bufferToFill).self.analyserComponent.processing =
      m.analyserComponent.processing ∧
    Call.addJobCloseAudioDevice ∉ (m.getNextAudioBlock bufferToFill).calls := by
  obtain ⟨g1, g2, g3, g4, g5⟩ := getNextAudioBlock_hold m bufferToFill
  rw [hIdle] at g3 g4 g5
  refine ⟨by simpa using g3, g1.trans hIdle, g2, fun h => by simpa using g4.mp h, ?_,
    fun h => by simpa using g5.mp h⟩
  have hb := beforeHold_processing m bufferToFill
  have hh := (beforeHold_hold m bufferToFill).1
  unfold getNextAudioBlock holdStage
  generalize monitoringStage (analyserStage (processorStage (sourceStage m bufferToFill))) = f
    at hb hh
  rw [hIdle] at hh
  simp [hh, hb]

/-- Witness of C12: the example bench with the hold not armed and a counter (5000)
already above the hold size (4096); a block of 512 samples leaves the counter at 5000
and makes neither call. -/
theorem getNextAudioBlock_not_armed_witness :
    (({ Example.bench 1 2 false false (Example.slot true false true false)
          (Example.slot false true true false) with sampleCounter := 5000 } :
        MainContentComponent ℚ Nat 2 4).getNextAudioBlock
      (Example.deviceBuffer 512)).self.sampleCounter = 5000 ∧
    Call.analyserSuspendProcessing ∉
      (({ Example.bench 1 2 false false (Example.slot true false true false)
          (Example.slot false true true false) with sampleCounter := 5000 } :
        MainContentComponent ℚ Nat 2 4).getNextAudioBlock (Example.deviceBuffer 512)).calls ∧
    Call.addJobCloseAudioDevice ∉
      (({ Example.bench 1 2 false false (Example.slot true false true false)
          (Example.slot false true true false) with sampleCounter := 5000 } :
        MainContentComponent ℚ Nat 2 4).getNextAudioBlock (Example.deviceBuffer 512)).calls :=
  ⟨(getNextAudioBlock_not_armed
      ({ Example.bench 1 2 false false (Example.slot true false true false)
          (Example.slot false true true false) with sampleCounter := 5000 } :
        MainContentComponent ℚ Nat 2 4) (Example.deviceBuffer 512) rfl).1,
    (getNextAudioBlock_not_armed
      ({ Example.bench 1 2 false false (Example.slot true false true false)
          (Example.slot false true true false) with sampleCounter := 5000 } :
        MainContentComponent ℚ Nat 2 4) (Example.deviceBuffer 512) rfl).2.2.2.1,
    (getNextAudioBlock_not_armed
      ({ Example.bench 1 2 false false (Example.slot true false true false)
          (Example.slot false true true false) with sampleCounter := 5000 } :
        MainContentComponent ℚ Nat 2 4) (Example.deviceBuffer 512) rfl).2.2.2.2.2⟩

/-- While the hold is armed, a run of blocks none of which has a negative length
keeps the hold armed, keeps the hold size and does not decrease the counter. -/
theorem runBlocks_armed_mono (blocks : List (AudioSourceChannelInfo S d k))
    (hblocks : ∀ b ∈ blocks, 0 ≤ b.numSamples) (m : MainContentComponent S σ c n)
    (hArmed : m.holdAudio = true) :
    (m.runBlocks blocks).1.holdAudio = true ∧
    (m.runBlocks blocks).1.holdSize = m.holdSize ∧
    m.sampleCounter ≤ (m.runBlocks blocks).1.sampleCounter := by
  induction blocks generalizing m with
  | nil => simp [runBlocks, hArmed]
  | cons b bs ih =>
    obtain ⟨g1, g2, g3, _, _⟩ := getNextAudioBlock_hold m b
    have hb : 0 ≤ b.numSamples := hblocks b (List.mem_cons_self b bs)
    obtain ⟨i1, i2, i3⟩ :=
      ih (fun x hx => hblocks x (List.mem_cons_of_mem b hx)) (m.getNextAudioBlock b).self
        (g1.trans hArmed)
    refine ⟨i1, i2.trans g2, ?_⟩
    show m.sampleCounter ≤ ((m.getNextAudioBlock b).self.runBlocks bs).1.sampleCounter
    rw [g3, hArmed] at i3
    simp only [if_true] at i3
    omega

/-- C13: while the hold stays armed and only `getNextAudioBlock` is called, with
`numSamples >= 0`, `sampleCounter` does not decrease, from one call to the next and
over any run of calls; so expiry is absorbing: once a call has asked for the device to
be closed, every later call also suspends the analyser and hands another close-device
job to the thread pool. -/
theorem getNextAudioBlock_expiry_absorbing (m : MainContentComponent S σ c n)
    (hArmed : m.holdAudio = true)
    (first : AudioSourceChannelInfo S d k) (later : List (AudioSourceChannelInfo S d k))
    (hlater : ∀ b ∈ later, 0 ≤ b.numSamples)
    (bufferToFill : AudioSourceChannelInfo S d k) (hb : 0 ≤ bufferToFill.numSamples) :
    m.sampleCounter ≤ (m.getNextAudioBlock bufferToFill).self.sampleCounter ∧
    m.sampleCounter ≤ (m.runBlocks later).1.sampleCounter ∧
    (Call.addJobCloseAudioDevice ∈ (m.getNextAudioBlock first).calls →
      Call.analyserSuspendProcessing ∈
        (((m.getNextAudioBlock first).self.runBlocks later).1.getNextAudioBlock
          bufferToFill).calls ∧
      Call.addJobCloseAudioDevice ∈
        (((m.getNextAudioBlock first).self.runBlocks later).1.getNextAudioBlock
          bufferToFill).calls) := by
  refine ⟨?_, (runBlocks_armed_mono later hlater m hArmed).2.2, fun hreq => ?_⟩
  · obtain ⟨_, _, g3, _, _⟩ := getNextAudioBlock_hold m bufferToFill
    rw [g3, hArmed]
    simp only [if_true]
    omega
  · obtain ⟨f1, f2, f3, _, f5⟩ := getNextAudioBlock_hold m first
    obtain ⟨_, hgt⟩ := f5.mp hreq
    rw [hArmed] at f3
    simp only [if_true] at f3
    obtain ⟨r1, r2, r3⟩ :=
      runBlocks_armed_mono later hlater (m.getNextAudioBlock first).self (f1.trans hArmed)
    obtain ⟨_, _, _, s4, s5⟩ :=
      getNextAudioBlock_hold ((m.getNextAudioBlock first).self.runBlocks later).1 bufferToFill
    have hexp : ((m.getNextAudioBlock first).self.runBlocks later).1.sampleCounter +
        bufferToFill.numSamples >
          ((m.getNextAudioBlock first).self.runBlocks later).1.holdSize := by
      rw [r2, f2]
      omega
    exact ⟨s4.mpr ⟨r1, hexp⟩, s5.mpr ⟨r1, hexp⟩⟩

/-- Witness of C13: on the armed example bench (hold size 4096) a first block of 5000
samples asks for the device to be closed; after nine more blocks of 512 samples a block
of length 0 still suspends the analyser and asks again. -/
theorem getNextAudioBlock_expiry_absorbing_witness :
    Call.analyserSuspendProcessing ∈
      (((Example.armedBench.getNextAudioBlock (Example.deviceBuffer 5000)).self.runBlocks
        Example.blocks512).1.getNextAudioBlock (Example.deviceBuffer 0)).calls ∧
    Call.addJobCloseAudioDevice ∈
      (((Example.armedBench.getNextAudioBlock (Example.deviceBuffer 5000)).self.runBlocks
        Example.blocks512).1.getNextAudioBlock (Example.deviceBuffer 0)).calls :=
  (getNextAudioBlock_expiry_absorbing Example.armedBench rfl (Example.deviceBuffer 5000)
    Example.blocks512
    (fun b hb => by rw [List.eq_of_mem_replicate hb]; exact (by decide : (0 : Int) ≤ 512))
    (Example.deviceBuffer 0) (le_refl 0)).2.2
    ((getNextAudioBlock_hold Example.armedBench (Example.deviceBuffer 5000)).2.2.2.2.mpr
      ⟨rfl, (by decide : (0 : Int) + 5000 > 4096)⟩)

end MainContentComponent

/-! ## ParametricEQ defaults -/

/-- C8 fails on the code: `frequencyControl` is a valid control index of `ParametricEQ`
and its default control value is 440, which is not in the range 0..1 that the
documentation of `ProcessorHarness::getDefaultControlValue` gives; the default
of `gainControl`, 0, is in that range. -/
theorem ParametricEQ.getDefaultControlValue_frequency :
    0 ≤ ParametricEQ.frequencyControl ∧
    ParametricEQ.frequencyControl < ParametricEQ.numControls ∧
    ParametricEQ.getDefaultControlValue ParametricEQ.frequencyControl = 440 ∧
    ¬ (0 ≤ ParametricEQ.getDefaultControlValue ParametricEQ.frequencyControl ∧
        ParametricEQ.getDefaultControlValue ParametricEQ.frequencyControl ≤ 1) ∧
    ParametricEQ.getDefaultControlValue ParametricEQ.gainControl = 0 := by
  refine ⟨by decide, by decide, ?_, ?_, ?_⟩
  · simp [ParametricEQ.getDefaultControlValue]
  · simp [ParametricEQ.getDefaultControlValue]
  · simp [ParametricEQ.getDefaultControlValue, ParametricEQ.gainControl,
      ParametricEQ.frequencyControl]

/-! ## ProcessorHarness statistics -/

/-- C11: starting from the statistics declared in `ProcessorHarness` for a lifecycle call
(min = 1.0E100, max = -1.0, sum = 0, count = 0), folding one duration `d` with
`0 <= d <= 1.0E100` by `min = min (min, d)`, `max = max (max, d)`, `sum += d`,
`count += 1` gives min = max = d, sum = d and count = 1, for each of the three
lifecycle calls: the first sample sets both bounds. -/
theorem ProcessorHarness.first_sample (d : ℚ) (hd0 : 0 ≤ d) (hd1 : d ≤ double1E100) :
    ((({} : ProcessorHarness).prepareHarness d).prepDurationMin = d ∧
      (({} : ProcessorHarness).prepareHarness d).prepDurationMax = d ∧
      (({} : ProcessorHarness).prepareHarness d).prepDurationSum = d ∧
      (({} : ProcessorHarness).prepareHarness d).prepDurationCount = 1) ∧
    ((({} : ProcessorHarness).processHarness d).procDurationMin = d ∧
      (({} : ProcessorHarness).processHarness d).procDurationMax = d ∧
      (({} : ProcessorHarness).processHarness d).procDurationSum = d ∧
      (({} : ProcessorHarness).processHarness d).procDurationCount = 1) ∧
    ((({} : ProcessorHarness).resetHarness d).resetDurationMin = d ∧
      (({} : ProcessorHarness).resetHarness d).resetDurationMax = d ∧
      (({} : ProcessorHarness).resetHarness d).resetDurationSum = d ∧
      (({} : ProcessorHarness).resetHarness d).resetDurationCount = 1) := by
  have hmax : (-1 : ℚ) ≤ d := by linarith
  simp [ProcessorHarness.prepareHarness, ProcessorHarness.processHarness,
    ProcessorHarness.resetHarness, min_eq_right hd1, max_eq_right hmax]

/-- Witness of C11: a first `process` call that took 3/8 of a millisecond. -/
theorem ProcessorHarness.first_sample_witness :
    (({} : ProcessorHarness).processHarness (3 / 8)).procDurationMin = 3 / 8 ∧
    (({} : ProcessorHarness).processHarness (3 / 8)).procDurationMax = 3 / 8 ∧
    (({} : ProcessorHarness).processHarness (3 / 8)).procDurationSum = 3 / 8 ∧
    (({} : ProcessorHarness).processHarness (3 / 8)).procDurationCount = 1 :=
  (ProcessorHarness.first_sample (3 / 8) (by norm_num)
    (by unfold double1E100; norm_num)).2.1

end DSPTestbench
